import Mathlib

/-!
Shallow embedding of the Homeopathy RAG backend (backend/main.py) and of the
ingestion script (backend/ingest.py), together with theorems checking the
design document against this embedding.

External collaborators (the sentence-transformer embedding model, the Endee
vector index service, the Gemini generation service, the corpus file) are
modelled as oracle values and oracle functions carried in environment records;
every call the code makes to an external service is recorded in an explicit
effect trace so that claims of the form "service X is never reached" are
statable. Wall-clock timing is outside the embedding and reported as 0.
-/

namespace RagSpec

/-- Characters removed by the Python str.strip() used on queries (ASCII
whitespace; unicode whitespace beyond ASCII is not modelled). -/
def pyIsSpace (c : Char) : Bool :=
  c = ' ' || c = '\t' || c = '\n' || c = '\r' || c = '\x0b' || c = '\x0c'

/-- Python s.strip(): remove leading and trailing whitespace characters. -/
def pyStrip (s : String) : String :=
  ⟨((s.data.dropWhile pyIsSpace).reverse.dropWhile pyIsSpace).reverse⟩

/-- Python s[:n] slicing on a string (by characters). -/
def pySlice (s : String) (n : Nat) : String :=
  ⟨s.data.take n⟩

/-- Python truthiness of an Optional[str] value: None and the empty string
are falsy, every nonempty string is truthy. -/
def pyTruthy : Option String → Bool
  | none => false
  | some s => !s.isEmpty

/-- Python f-string rendering of an optional value: None prints as "None". -/
def pyStrOpt : Option String → String
  | none => "None"
  | some s => s

/-- main.py line 45 and ingest.py line 20. -/
def INDEX_NAME : String := "homeopathy_remedies"

/-- main.py lines 52-57: the ordered generation fallback chain. -/
def GEMINI_MODEL_FALLBACKS : List String :=
  ["models/gemini-flash-latest", "models/gemini-pro-latest",
   "models/gemini-2.0-flash", "models/gemini-2.5-flash"]

/-- ingest.py line 23. -/
def BATCH_SIZE : Nat := 50

/-- ingest.py line 22. -/
def EMBEDDING_DIMENSION : Nat := 384

/-- fastapi.HTTPException as raised by the handlers: an HTTP status code and
a detail string. -/
structure HTTPException where
  status_code : Nat
  detail : String
deriving DecidableEq

/-- Pydantic SearchRequest (main.py lines 61-63): query plus top_k with
default 5. -/
structure SearchRequest where
  query : String
  top_k : Int := 5

/-- Pydantic ChatRequest (main.py lines 65-67): query plus a history of prior
turns (a list of dicts, modelled as association lists) that defaults to []. -/
structure ChatRequest where
  query : String
  history : List (List (String × String)) := []

/-- Pydantic RemedyResult (main.py lines 70-76). -/
structure RemedyResult where
  id : String
  remedy_name : String
  alternative_names : String
  similarity : Float
  text_preview : String
  full_text : Option String := none

/-- Pydantic SearchResponse (main.py lines 79-82). -/
structure SearchResponse where
  results : List RemedyResult
  query_time_ms : Float
  total_results : Nat

/-- Pydantic ChatResponse (main.py lines 85-87). -/
structure ChatResponse where
  answer : String
  sources : List RemedyResult

/-- Pydantic StatsResponse (main.py lines 90-95). -/
structure StatsResponse where
  total_remedies : Nat
  index_name : String
  dimension : Nat
  metric : String
  status : String
deriving DecidableEq

/-- The meta dict of a raw hit returned by index.query; every key may be
absent (the code reads each one with dict.get and a default). -/
structure RawMeta where
  remedy_name : Option String := none
  alternative_names : Option String := none
  text_preview : Option String := none
  full_text : Option String := none

/-- A raw hit returned by index.query; the keys id, meta and similarity may
each be absent. -/
structure RawHit where
  id : Option String := none
  meta : Option RawMeta := none
  similarity : Option Float := none

/-- main.py lines 193-202: map one raw hit into a RemedyResult, applying the
dict.get defaults the code uses (missing meta reads as the empty dict). -/
def mapHit (r : RawHit) : RemedyResult :=
  let meta := r.meta.getD {}
  { id := r.id.getD ""
    remedy_name := meta.remedy_name.getD "Unknown"
    alternative_names := meta.alternative_names.getD ""
    similarity := r.similarity.getD 0.0
    text_preview := meta.text_preview.getD ""
    full_text := some (meta.full_text.getD "") }

/-- External collaborators of the search path: the embedding model and the
index query endpoint, as pure oracle functions. -/
structure SearchEnv where
  encode : String → List Float
  indexQuery : List Float → Int → List RawHit

/-- How many times each external service was reached during one search
call. -/
structure SearchEffects where
  encoderCalls : Nat
  indexCalls : Nat
deriving DecidableEq

/-- main.py search_remedies (lines 157-218): input validation, query
embedding, index query, result mapping. The wall-clock latency measurement is
outside the embedding and is reported as 0; the oracles are total functions,
so the generic 500 handler for exceptions raised by them does not arise in
the model. -/
def search_remedies (env : SearchEnv) (req : SearchRequest) :
    Except HTTPException SearchResponse × SearchEffects :=
  if req.query.isEmpty || (pyStrip req.query).isEmpty then
    (.error ⟨400, "Query cannot be empty"⟩, ⟨0, 0⟩)
  else if req.top_k < 1 || req.top_k > 50 then
    (.error ⟨400, "top_k must be between 1 and 50"⟩, ⟨0, 0⟩)
  else
    let v := env.encode req.query
    let hits := env.indexQuery v req.top_k
    let results := hits.map mapHit
    (.ok { results := results, query_time_ms := 0.0, total_results := results.length },
     ⟨1, 1⟩)

/-- The observable state of the index service for the stats endpoint: the
index names returned by list_indexes, and the number of records actually held
by the target index (external ground truth, which the code never reads). -/
structure StatsEnv where
  indexNames : List String
  recordsHeld : Nat

/-- main.py get_stats (lines 223-257): scan the list_indexes response for
INDEX_NAME; 404 when it is absent; otherwise a StatsResponse whose
total_remedies is the hardcoded literal 688 from line 246. -/
def get_stats (env : StatsEnv) : Except HTTPException StatsResponse :=
  match env.indexNames.find? (fun n => n == INDEX_NAME) with
  | none => .error ⟨404, "Index \x27homeopathy_remedies\x27 not found"⟩
  | some _ =>
    .ok { total_remedies := 688, index_name := INDEX_NAME, dimension := 384,
          metric := "cosine", status := "active" }

/-- External collaborators of the chat path: the search collaborators, the
gemini_model global set at startup (modelled by whether it is set), and the
generation service as a function of model name and prompt. -/
structure ChatEnv where
  searchEnv : SearchEnv
  geminiConfigured : Bool
  generate : String → String → Except String String

/-- Effect trace of one chat call: how many times search_remedies was
invoked, which candidate models were handed a generation call (in order), and
the prompt that was built, when one was. -/
structure ChatEffects where
  searchCalls : Nat
  genAttempts : List String
  promptBuilt : Option String

/-- main.py lines 275-281: the context block of the prompt, one section per
retrieved result, in retrieval order. -/
def contextText (results : List RemedyResult) : String :=
  String.join (results.enum.map (fun p =>
    "Remedy " ++ toString (p.1 + 1) ++ ": " ++ p.2.remedy_name ++ "\n"
      ++ p.2.text_preview ++ "\n"
      ++ (if pyTruthy p.2.full_text then
            "Full Text Snippet: " ++ pySlice (p.2.full_text.getD "") 500 ++ "...\n"
          else "")
      ++ "---\n"))

/-- main.py lines 283-298: the fixed prompt template around the context block
and the verbatim user question. -/
def buildPrompt (query : String) (results : List RemedyResult) : String :=
  "\n        You are a helpful Homeopathy Assistant. Use ONLY the context below.\n\n        Task:\n        1) Summarize the top matching remedies in 3-5 short bullet points.\n        2) Then give a concise final answer to the user\x27s question.\n\n        Requirements:\n        - Cite remedy names you used.\n        - If the answer is not in the context, say so.\n\n        Context:\n        "
    ++ contextText results
    ++ "\n\n        User Question: " ++ query ++ "\n        "

/-- main.py lines 301-310: the generation fallback loop. Given the generation
oracle applied to the built prompt, the remaining candidates and the
last_error accumulator, it returns the response (none when every candidate so
far failed), the final last_error, and the list of candidates actually handed
a generation call, in order. -/
def runFallback (gen : String → Except String String) :
    List String → Option String → Option String × Option String × List String
  | [], lastError => (none, lastError, [])
  | m :: rest, lastError =>
    match gen m with
    | .ok t => (some t, lastError, [m])
    | .error e =>
      let r := runFallback gen rest (some e)
      (r.1, r.2.1, m :: r.2.2)

/-- main.py chat_with_remedies (lines 262-324): 503 when no Gemini model was
configured at startup, then retrieval through search_remedies with top_k = 5
(an HTTPException from it propagates), prompt assembly, the generation
fallback chain, and a ChatResponse whose sources are the retrieved
results. -/
def chat_with_remedies (env : ChatEnv) (req : ChatRequest) :
    Except HTTPException ChatResponse × ChatEffects :=
  if !env.geminiConfigured then
    (.error ⟨503, "Gemini model not initialized. Check server logs/API key."⟩,
     ⟨0, [], none⟩)
  else
    match search_remedies env.searchEnv { query := req.query, top_k := 5 } with
    | (.error e, _) => (.error e, ⟨1, [], none⟩)
    | (.ok sres, _) =>
      let prompt := buildPrompt req.query sres.results
      let r := runFallback (fun m => env.generate m prompt) GEMINI_MODEL_FALLBACKS none
      match r.1 with
      | none =>
        (.error ⟨500, "Chat generation failed: " ++ pyStrOpt r.2.1⟩,
         ⟨1, r.2.2, some prompt⟩)
      | some text =>
        (.ok { answer := text, sources := sres.results }, ⟨1, r.2.2, some prompt⟩)

/-- One corpus chunk as read from remedy_chunks.json. The text and
remedy_name keys are read with mandatory indexing; remedy_index and
chunk_type may be absent (ingest.py reads them with dict.get defaults). -/
structure Chunk where
  text : String
  remedy_name : String
  remedy_index : Option Int := none
  chunk_type : Option String := none

/-- The meta payload of an ingested vector (ingest.py lines 119-124). -/
structure VectorMeta where
  remedy_name : String
  remedy_index : Int
  text_preview : String
  full_text : String

/-- The filter payload of an ingested vector (ingest.py lines 125-128). -/
structure VectorFilter where
  remedy_name : String
  chunk_type : String

/-- The vector_data dict upserted for one chunk (ingest.py lines 116-129). -/
structure VectorRecord where
  id : String
  vector : List Float
  meta : VectorMeta
  filter : VectorFilter

/-- ingest.py lines 110-131: the vector_data dict built for the chunk at
zero-based position idx of the loaded sequence. -/
def mkVectorData (encode : String → List Float) (idx : Nat) (chunk : Chunk) :
    VectorRecord :=
  { id := "chunk_" ++ toString idx
    vector := encode chunk.text
    meta := { remedy_name := chunk.remedy_name
              remedy_index := chunk.remedy_index.getD 0
              text_preview := pySlice chunk.text 300 ++ "..."
              full_text := chunk.text }
    filter := { remedy_name := chunk.remedy_name
                chunk_type := chunk.chunk_type.getD "flat_window" } }

/-- ingest.py step 5: one VectorRecord per chunk, in corpus order. -/
def vectors_to_upsert (encode : String → List Float) (chunks : List Chunk) :
    List VectorRecord :=
  chunks.enum.map (fun p => mkVectorData encode p.1 p.2)

/-- ingest.py step 6: the loop for i in range(0, len(v), BATCH_SIZE) slices
the vector list into consecutive batches v[i : i + BATCH_SIZE]; the last
batch may be shorter. -/
def toBatches {α : Type} : List α → List (List α)
  | [] => []
  | x :: xs => ((x :: xs).take BATCH_SIZE) :: toBatches ((x :: xs).drop BATCH_SIZE)
termination_by l => l.length
decreasing_by simp [List.length_drop, BATCH_SIZE]; omega

/-- Sequential upsert of the batches. A failing batch aborts the run (the
script calls exit(1)), so later batches are not attempted. Returns the
outcome together with the batches actually handed to index.upsert, in
order. -/
def runUpserts (upsert : List VectorRecord → Except String Unit) :
    List (List VectorRecord) → Except String Unit × List (List VectorRecord)
  | [] => (.ok (), [])
  | b :: rest =>
    match upsert b with
    | .error e => (.error e, [b])
    | .ok () =>
      let r := runUpserts upsert rest
      (r.1, b :: r.2)

/-- The external collaborators of ingest.py, one oracle per fallible stage:
client construction, corpus file load, embedding model load, index
resolution (steps 1 to 4), plus the encoder, the upsert endpoint and the
step 7 verification query. -/
structure IngestEnv where
  connect : Except String Unit
  loadChunks : Except String (List Chunk)
  loadModel : Except String Unit
  resolveIndex : Except String Unit
  encode : String → List Float
  upsert : List VectorRecord → Except String Unit
  verify : Except String Unit

/-- Outcome of one ingestion run: completed with the number of records
upserted, or aborted at a named stage (ingest.py prints the stage error and
calls exit(1) there). -/
inductive IngestOutcome where
  | completed (total : Nat)
  | aborted (stage : String)
deriving DecidableEq

/-- ingest.py top-level flow, steps 1 to 7, with the batches handed to
index.upsert as the effect trace. Step 7 (the verification query) catches its
own exceptions and only reports them, so it does not affect the outcome. -/
def ingest_run (env : IngestEnv) : IngestOutcome × List (List VectorRecord) :=
  match env.connect with
  | .error _ => (.aborted "connect", [])
  | .ok () =>
    match env.loadChunks with
    | .error _ => (.aborted "load_chunks", [])
    | .ok chunks =>
      match env.loadModel with
      | .error _ => (.aborted "load_model", [])
      | .ok () =>
        match env.resolveIndex with
        | .error _ => (.aborted "create_index", [])
        | .ok () =>
          let vectors := vectors_to_upsert env.encode chunks
          let r := runUpserts env.upsert (toBatches vectors)
          match r.1 with
          | .error _ => (.aborted "upsert", r.2)
          | .ok () => (.completed vectors.length, r.2)

/-- External collaborators of main.py startup_event, one oracle per fallible
step of initialization; apiKey models os.getenv for GEMINI_API_KEY. -/
structure StartupEnv where
  connect : Except String Unit
  loadModel : Except String Unit
  getIndex : Except String Unit
  apiKey : Option String
  configureGemini : Except String Unit

/-- Outcome of startup_event. ready carries whether a Gemini model was set;
keepAliveLoop is the infinite while True / time.sleep(60) branch of the
exception handler; abortProcess would be the re-raise, which main.py has
commented out, so startup_event never produces it. -/
inductive StartupOutcome where
  | ready (geminiConfigured : Bool)
  | keepAliveLoop
  | abortProcess
deriving DecidableEq

/-- main.py startup_event (lines 100-139). A missing API key only logs a
warning and leaves gemini_model unset; any exception in the body is caught
and the process is parked in an infinite sleep loop instead of aborting. -/
def startup_event (env : StartupEnv) : StartupOutcome :=
  match env.connect with
  | .error _ => .keepAliveLoop
  | .ok () =>
    match env.loadModel with
    | .error _ => .keepAliveLoop
    | .ok () =>
      match env.getIndex with
      | .error _ => .keepAliveLoop
      | .ok () =>
        match env.apiKey with
        | none => .ready false
        | some _ =>
          match env.configureGemini with
          | .error _ => .keepAliveLoop
          | .ok () => .ready true

/-- True when some step of startup_event raises (the Gemini configuration
step only runs when an API key is present). -/
def startupErrorHit (env : StartupEnv) : Bool :=
  !env.connect.isOk || !env.loadModel.isOk || !env.getIndex.isOk ||
    (env.apiKey.isSome && !env.configureGemini.isOk)

/-- A stats environment where the target index exists but holds no records. -/
def statsEnvEmptyIndex : StatsEnv :=
  { indexNames := ["homeopathy_remedies"], recordsHeld := 0 }

/-- A startup environment whose index-service connection fails at boot. -/
def badStartupEnv : StartupEnv :=
  { connect := .error "connection refused", loadModel := .ok (), getIndex := .ok (),
    apiKey := none, configureGemini := .ok () }

/-- An ingestion environment whose corpus file is missing. -/
def badIngestEnv : IngestEnv :=
  { connect := .ok (), loadChunks := .error "No such file: data/remedy_chunks.json",
    loadModel := .ok (), resolveIndex := .ok (),
    encode := fun _ => [], upsert := fun _ => .ok (), verify := .ok () }

/-- A search environment with trivial oracles, for concrete evaluations. -/
def searchEnvW : SearchEnv :=
  { encode := fun _ => [], indexQuery := fun _ _ => [] }

/-- A chat environment whose first fallback candidate fails and whose second
succeeds. -/
def chatEnvA : ChatEnv :=
  { searchEnv := { encode := fun _ => [], indexQuery := fun _ _ => [] }
    geminiConfigured := true
    generate := fun m _ =>
      if m == "models/gemini-flash-latest" then .error "quota exceeded"
      else if m == "models/gemini-pro-latest" then .ok "from model two"
      else .error "unreachable" }

/-- A chat environment in which every generation candidate fails. -/
def chatEnvB : ChatEnv :=
  { searchEnv := { encode := fun _ => [], indexQuery := fun _ _ => [] }
    geminiConfigured := true
    generate := fun _ _ => .error "rate limited" }

/-- A chat environment in which every generation candidate succeeds. -/
def chatEnvC : ChatEnv :=
  { searchEnv := { encode := fun _ => [], indexQuery := fun _ _ => [] }
    geminiConfigured := true
    generate := fun _ _ => .ok "generated answer" }

/-- A sample chunk for concrete ingestion runs. -/
def chunkW : Chunk :=
  { text := "splitting headache with nausea", remedy_name := "Arnica" }

/-- An ingestion environment whose corpus holds 60 copies of chunkW, so that
the batch partition has two batches. -/
def ingestEnvW : IngestEnv :=
  { connect := .ok (), loadChunks := .ok (List.replicate 60 chunkW),
    loadModel := .ok (), resolveIndex := .ok (),
    encode := fun _ => [], upsert := fun _ => .ok (), verify := .ok () }

/-- A raw hit in which every key is absent. -/
def emptyRawHit : RawHit := {}

/-! ## Helper lemmas -/

theorem runFallback_trace_take (gen : String → Except String String) (ms : List String) :
    ∀ le : Option String, ∃ k : Nat, (runFallback gen ms le).2.2 = ms.take k := by
  induction ms with
  | nil => intro le; exact ⟨0, rfl⟩
  | cons m rest ih =>
    intro le
    cases hg : gen m with
    | ok t => exact ⟨1, by simp [runFallback, hg]⟩
    | error e =>
      obtain ⟨k, hk⟩ := ih (some e)
      exact ⟨k + 1, by simp [runFallback, hg, hk]⟩

theorem gemini_fallbacks_nodup : GEMINI_MODEL_FALLBACKS.Nodup := by decide

theorem chat_genAttempts_take (env : ChatEnv) (req : ChatRequest) :
    ∃ k : Nat, (chat_with_remedies env req).2.genAttempts = GEMINI_MODEL_FALLBACKS.take k := by
  cases hb : env.geminiConfigured with
  | false => exact ⟨0, by simp [chat_with_remedies, hb]⟩
  | true =>
    rcases hsr : search_remedies env.searchEnv { query := req.query, top_k := 5 } with ⟨res, fx⟩
    cases res with
    | error e => exact ⟨0, by simp [chat_with_remedies, hb, hsr]⟩
    | ok sres =>
      obtain ⟨k, hk⟩ := runFallback_trace_take
        (fun m => env.generate m (buildPrompt req.query sres.results)) GEMINI_MODEL_FALLBACKS none
      rcases hr : runFallback (fun m => env.generate m (buildPrompt req.query sres.results))
          GEMINI_MODEL_FALLBACKS none with ⟨r1, r2, r3⟩
      rw [hr] at hk
      cases r1 with
      | none => exact ⟨k, by simpa [chat_with_remedies, hb, hsr, hr] using hk⟩
      | some t => exact ⟨k, by simpa [chat_with_remedies, hb, hsr, hr] using hk⟩

theorem toBatches_nil_eq {α : Type} : toBatches ([] : List α) = [] := by
  rw [toBatches.eq_def]

theorem toBatches_cons_eq {α : Type} (x : α) (xs : List α) :
    toBatches (x :: xs) =
      ((x :: xs).take BATCH_SIZE) :: toBatches ((x :: xs).drop BATCH_SIZE) := by
  rw [toBatches.eq_def]

theorem toBatches_flatten {α : Type} (l : List α) : (toBatches l).flatten = l := by
  induction l using toBatches.induct with
  | case1 => rw [toBatches_nil_eq]; rfl
  | case2 x xs ih => rw [toBatches_cons_eq, List.flatten_cons, ih, List.take_append_drop]

theorem toBatches_count {α : Type} (l : List α) :
    (toBatches l).length = (l.length + BATCH_SIZE - 1) / BATCH_SIZE := by
  induction l using toBatches.induct with
  | case1 => rw [toBatches_nil_eq]; simp [BATCH_SIZE]
  | case2 x xs ih =>
    rw [toBatches_cons_eq, List.length_cons, ih, List.length_drop, List.length_cons]
    simp only [BATCH_SIZE]
    omega

theorem toBatches_slice {α : Type} (l : List α) :
    ∀ i : Nat, i < (toBatches l).length →
      (toBatches l)[i]? = some ((l.drop (BATCH_SIZE * i)).take BATCH_SIZE) := by
  induction l using toBatches.induct with
  | case1 => intro i hi; rw [toBatches_nil_eq] at hi; simp at hi
  | case2 x xs ih =>
    intro i hi
    rw [toBatches_cons_eq] at hi ⊢
    cases i with
    | zero => simp
    | succ j =>
      simp only [List.getElem?_cons_succ]
      rw [ih j (by simpa using hi), List.drop_drop]
      have harith : BATCH_SIZE + BATCH_SIZE * j = BATCH_SIZE * (j + 1) := by ring
      rw [harith]

theorem toBatches_sizes {α : Type} (l : List α) :
    ∀ b ∈ toBatches l, 0 < b.length ∧ b.length ≤ BATCH_SIZE := by
  induction l using toBatches.induct with
  | case1 => intro b hb; rw [toBatches_nil_eq] at hb; cases hb
  | case2 x xs ih =>
    intro b hb
    rw [toBatches_cons_eq] at hb
    rcases List.mem_cons.mp hb with hb | hb
    · subst hb
      simp only [List.length_take, List.length_cons, BATCH_SIZE]
      omega
    · exact ih b hb

theorem runUpserts_all_ok (upsert : List VectorRecord → Except String Unit)
    (h : ∀ b, upsert b = .ok ()) :
    ∀ bs : List (List VectorRecord), runUpserts upsert bs = (.ok (), bs) := by
  intro bs
  induction bs with
  | nil => rfl
  | cons b rest ih => simp [runUpserts, h b, ih]

theorem vectors_to_upsert_length (encode : String → List Float) (chunks : List Chunk) :
    (vectors_to_upsert encode chunks).length = chunks.length := by
  simp [vectors_to_upsert]

/-! ## Claim theorems -/

/-- Claim C1, counterexample: with the index homeopathy_remedies present but
holding 0 records, get_stats succeeds and still reports total_remedies = 688,
so the reported count is not the number of records held by the index. -/
theorem get_stats_count_counterexample :
    get_stats statsEnvEmptyIndex =
      .ok { total_remedies := 688, index_name := "homeopathy_remedies",
            dimension := 384, metric := "cosine", status := "active" } ∧
    statsEnvEmptyIndex.recordsHeld = 0 ∧ (688 : Nat) ≠ statsEnvEmptyIndex.recordsHeld := by
  refine ⟨rfl, rfl, ?_⟩
  decide

/-- Claim C1, amended: whenever the index homeopathy_remedies appears in the
list_indexes response, get_stats succeeds and returns index_name
homeopathy_remedies, dimension 384, metric cosine, status active, and as
total_remedies the hardcoded constant 688 (the count recorded at ingestion
time), regardless of the number of records the index actually holds. -/
theorem get_stats_reports_constant_688 (env : StatsEnv)
    (h : INDEX_NAME ∈ env.indexNames) :
    get_stats env =
      .ok { total_remedies := 688, index_name := INDEX_NAME, dimension := 384,
            metric := "cosine", status := "active" } := by
  unfold get_stats
  cases hf : env.indexNames.find? (fun n => n == INDEX_NAME) with
  | none =>
    rw [List.find?_eq_none] at hf
    exact absurd (by simp : (INDEX_NAME == INDEX_NAME) = true) (hf INDEX_NAME h)
  | some name => rfl

/-- Witness for get_stats_reports_constant_688 at a concrete environment. -/
theorem get_stats_reports_constant_688_witness :
    get_stats { indexNames := ["other_index", "homeopathy_remedies"], recordsHeld := 3 } =
      .ok { total_remedies := 688, index_name := INDEX_NAME, dimension := 384,
            metric := "cosine", status := "active" } :=
  get_stats_reports_constant_688
    { indexNames := ["other_index", "homeopathy_remedies"], recordsHeld := 3 } (by decide)

/-- Claim C2, counterexample: when the index-service connection fails at
backend boot, startup_event does not abort the process; the exception is
caught and the process is parked in an infinite sleep loop. -/
theorem startup_failure_not_abort_counterexample :
    startup_event badStartupEnv = .keepAliveLoop ∧
    startup_event badStartupEnv ≠ .abortProcess := by
  refine ⟨rfl, ?_⟩
  decide

/-- Claim C2, amended: configuration errors in the ingestion run (index
service unreachable, missing corpus file, encoder load failure, index
resolution failure) are fatal and abort the run; but configuration errors at
backend process startup do not abort the process: startup_event catches the
exception and keeps the process alive in an infinite sleep loop (the re-raise
is commented out), so the backend never reaches an aborted state. -/
theorem startup_and_ingest_error_policy :
    (∀ env : StartupEnv, startupErrorHit env = true → startup_event env = .keepAliveLoop) ∧
    (∀ env : StartupEnv, startup_event env ≠ .abortProcess) ∧
    (∀ (env : IngestEnv) (e : String), env.connect = .error e →
      (ingest_run env).1 = .aborted "connect") ∧
    (∀ (env : IngestEnv) (e : String), env.connect = .ok () →
      env.loadChunks = .error e → (ingest_run env).1 = .aborted "load_chunks") ∧
    (∀ (env : IngestEnv) (chunks : List Chunk) (e : String), env.connect = .ok () →
      env.loadChunks = .ok chunks → env.loadModel = .error e →
      (ingest_run env).1 = .aborted "load_model") ∧
    (∀ (env : IngestEnv) (chunks : List Chunk) (e : String), env.connect = .ok () →
      env.loadChunks = .ok chunks → env.loadModel = .ok () →
      env.resolveIndex = .error e → (ingest_run env).1 = .aborted "create_index") := by
  refine ⟨?_, ?_, ?_, ?_, ?_, ?_⟩
  · intro env h
    unfold startupErrorHit at h
    unfold startup_event
    cases hc : env.connect with
    | error e => rfl
    | ok u =>
      cases u
      cases hm : env.loadModel with
      | error e => rfl
      | ok u =>
        cases u
        cases hi : env.getIndex with
        | error e => rfl
        | ok u =>
          cases u
          cases ha : env.apiKey with
          | none =>
            rw [hc, hm, hi, ha] at h
            simp [Except.isOk, Except.toBool] at h
          | some k =>
            cases hg : env.configureGemini with
            | error e => rfl
            | ok u =>
              cases u
              rw [hc, hm, hi, ha, hg] at h
              simp [Except.isOk, Except.toBool] at h
  · intro env
    unfold startup_event
    cases env.connect with
    | error e => exact fun hcon => StartupOutcome.noConfusion hcon
    | ok u =>
      cases u
      cases env.loadModel with
      | error e => exact fun hcon => StartupOutcome.noConfusion hcon
      | ok u =>
        cases u
        cases env.getIndex with
        | error e => exact fun hcon => StartupOutcome.noConfusion hcon
        | ok u =>
          cases u
          cases env.apiKey with
          | none => exact fun hcon => StartupOutcome.noConfusion hcon
          | some k =>
            cases env.configureGemini with
            | error e => exact fun hcon => StartupOutcome.noConfusion hcon
            | ok u => cases u; exact fun hcon => StartupOutcome.noConfusion hcon
  · intro env e hc
    simp [ingest_run, hc]
  · intro env e hc hl
    simp [ingest_run, hc, hl]
  · intro env chunks e hc hl hm
    simp [ingest_run, hc, hl, hm]
  · intro env chunks e hc hl hm hi
    simp [ingest_run, hc, hl, hm, hi]

/-- Witness for startup_and_ingest_error_policy at concrete environments. -/
theorem startup_and_ingest_error_policy_witness :
    startup_event badStartupEnv = .keepAliveLoop ∧
    (ingest_run badIngestEnv).1 = .aborted "load_chunks" :=
  ⟨startup_and_ingest_error_policy.1 badStartupEnv (by decide),
   startup_and_ingest_error_policy.2.2.2.1 badIngestEnv
     "No such file: data/remedy_chunks.json" rfl rfl⟩

/-- Claim C5: search_remedies rejects an empty or whitespace-only query, and
rejects top_k outside the range 1..50, with a 400 validation error, and in
every such rejected call neither the encoder nor the index is reached. -/
theorem search_validation_rejects_before_services (env : SearchEnv) (req : SearchRequest) :
    ((req.query.isEmpty || (pyStrip req.query).isEmpty) = true →
      search_remedies env req = (.error ⟨400, "Query cannot be empty"⟩, ⟨0, 0⟩)) ∧
    ((req.query.isEmpty || (pyStrip req.query).isEmpty) = false →
      (req.top_k < 1 ∨ 50 < req.top_k) →
      search_remedies env req = (.error ⟨400, "top_k must be between 1 and 50"⟩, ⟨0, 0⟩)) := by
  constructor
  · intro h
    simp [search_remedies, h]
  · intro h hk
    rcases hk with hk | hk <;> simp [search_remedies, h, hk]

/-- Witness for search_validation_rejects_before_services at concrete
requests: a whitespace-only query, and an out-of-range top_k. -/
theorem search_validation_witness :
    search_remedies searchEnvW { query := "   ", top_k := 5 } =
      (.error ⟨400, "Query cannot be empty"⟩, ⟨0, 0⟩) ∧
    search_remedies searchEnvW { query := "headache", top_k := 51 } =
      (.error ⟨400, "top_k must be between 1 and 50"⟩, ⟨0, 0⟩) :=
  ⟨(search_validation_rejects_before_services searchEnvW
      { query := "   ", top_k := 5 }).1 (by decide),
   (search_validation_rejects_before_services searchEnvW
      { query := "headache", top_k := 51 }).2 (by decide) (Or.inr (by decide))⟩

/-- Claim C9: the chat response depends only on the query field of the
request, never on its history field: with the same environment (all external
services behaving identically), two requests with equal query and arbitrary
different histories produce identical results and identical effect traces,
including the built generation prompt. -/
theorem chat_independent_of_history (env : ChatEnv) (q : String)
    (h1 h2 : List (List (String × String))) :
    chat_with_remedies env { query := q, history := h1 } =
      chat_with_remedies env { query := q, history := h2 } := rfl

/-- Claim C10: mapping raw index hits into RemedyResults is total and
defaulting: a missing id maps to the empty string, a missing remedy_name to
Unknown, a missing alternative_names to the empty string, a missing
similarity to 0.0, and missing text_preview or full_text to the empty
string; and the return order of the hits is preserved position by
position. -/
theorem mapHit_total_defaults (hits : List RawHit) (r : RawHit) :
    (hits.map mapHit).length = hits.length ∧
    (∀ i : Nat, (hits.map mapHit)[i]? = hits[i]?.map mapHit) ∧
    (r.id = none → (mapHit r).id = "") ∧
    ((r.meta.getD {}).remedy_name = none → (mapHit r).remedy_name = "Unknown") ∧
    ((r.meta.getD {}).alternative_names = none → (mapHit r).alternative_names = "") ∧
    (r.similarity = none → (mapHit r).similarity = 0.0) ∧
    ((r.meta.getD {}).text_preview = none → (mapHit r).text_preview = "") ∧
    ((r.meta.getD {}).full_text = none → (mapHit r).full_text = some "") := by
  refine ⟨List.length_map hits mapHit, fun i => List.getElem?_map mapHit hits i,
    ?_, ?_, ?_, ?_, ?_, ?_⟩
  · intro h; simp [mapHit, h]
  · intro h; simp [mapHit, h]
  · intro h; simp [mapHit, h]
  · intro h; simp [mapHit, h]
  · intro h; simp [mapHit, h]
  · intro h; simp [mapHit, h]

/-- Witness for mapHit_total_defaults on the raw hit with every key
absent. -/
theorem mapHit_total_defaults_witness :
    (mapHit emptyRawHit).id = "" ∧
    (mapHit emptyRawHit).remedy_name = "Unknown" ∧
    (mapHit emptyRawHit).alternative_names = "" ∧
    (mapHit emptyRawHit).similarity = 0.0 ∧
    (mapHit emptyRawHit).text_preview = "" ∧
    (mapHit emptyRawHit).full_text = some "" := by
  have h := mapHit_total_defaults [] emptyRawHit
  exact ⟨h.2.2.1 rfl, h.2.2.2.1 rfl, h.2.2.2.2.1 rfl, h.2.2.2.2.2.1 rfl,
    h.2.2.2.2.2.2.1 rfl, h.2.2.2.2.2.2.2 rfl⟩

/-- Claim C3: in every chat request that reaches generation, if the first
fallback candidate fails and the second succeeds, the returned answer is the
second candidate output, only the first two candidates receive a generation
call, and in general the chain visits a prefix of the fixed candidate list,
so each candidate is visited at most once in a fixed, input-independent
order. -/
theorem chat_fallback_second_success (env : ChatEnv) (req : ChatRequest)
    (sres : SearchResponse) (fx : SearchEffects) (e a : String)
    (hg : env.geminiConfigured = true)
    (hs : search_remedies env.searchEnv { query := req.query, top_k := 5 } = (.ok sres, fx))
    (h1 : env.generate "models/gemini-flash-latest" (buildPrompt req.query sres.results) =
      .error e)
    (h2 : env.generate "models/gemini-pro-latest" (buildPrompt req.query sres.results) =
      .ok a) :
    (chat_with_remedies env req).1 = .ok { answer := a, sources := sres.results } ∧
    (chat_with_remedies env req).2.genAttempts =
      ["models/gemini-flash-latest", "models/gemini-pro-latest"] ∧
    (∀ (env2 : ChatEnv) (req2 : ChatRequest), ∃ k : Nat,
      (chat_with_remedies env2 req2).2.genAttempts = GEMINI_MODEL_FALLBACKS.take k ∧
      (chat_with_remedies env2 req2).2.genAttempts.Nodup) := by
  have hrun : chat_with_remedies env req =
      (.ok { answer := a, sources := sres.results },
       ⟨1, ["models/gemini-flash-latest", "models/gemini-pro-latest"],
        some (buildPrompt req.query sres.results)⟩) := by
    simp [chat_with_remedies, hg, hs, GEMINI_MODEL_FALLBACKS, runFallback, h1, h2]
  refine ⟨by rw [hrun], by rw [hrun], ?_⟩
  intro env2 req2
  obtain ⟨k, hk⟩ := chat_genAttempts_take env2 req2
  refine ⟨k, hk, ?_⟩
  rw [hk]
  exact List.Sublist.nodup (List.take_sublist k GEMINI_MODEL_FALLBACKS) gemini_fallbacks_nodup

/-- Witness for chat_fallback_second_success: a concrete environment where
candidate 1 fails with a quota error and candidate 2 answers. -/
theorem chat_fallback_second_success_witness :
    (chat_with_remedies chatEnvA { query := "headache" }).1 =
      .ok { answer := "from model two", sources := [] } ∧
    (chat_with_remedies chatEnvA { query := "headache" }).2.genAttempts =
      ["models/gemini-flash-latest", "models/gemini-pro-latest"] := by
  have h := chat_fallback_second_success chatEnvA { query := "headache" }
    { results := [], query_time_ms := 0.0, total_results := 0 } ⟨1, 1⟩
    "quota exceeded" "from model two" rfl rfl rfl rfl
  exact ⟨h.1, h.2.1⟩

/-- Claim C4: in every chat request that reaches generation, if all four
fallback candidates fail, the call fails with a 500 error whose detail
carries the last candidate failure, and no answer is returned. -/
theorem chat_fallback_exhaustion (env : ChatEnv) (req : ChatRequest)
    (sres : SearchResponse) (fx : SearchEffects) (e1 e2 e3 e4 : String)
    (hg : env.geminiConfigured = true)
    (hs : search_remedies env.searchEnv { query := req.query, top_k := 5 } = (.ok sres, fx))
    (h1 : env.generate "models/gemini-flash-latest" (buildPrompt req.query sres.results) =
      .error e1)
    (h2 : env.generate "models/gemini-pro-latest" (buildPrompt req.query sres.results) =
      .error e2)
    (h3 : env.generate "models/gemini-2.0-flash" (buildPrompt req.query sres.results) =
      .error e3)
    (h4 : env.generate "models/gemini-2.5-flash" (buildPrompt req.query sres.results) =
      .error e4) :
    (chat_with_remedies env req).1 =
      .error ⟨500, "Chat generation failed: " ++ e4⟩ ∧
    ∀ resp : ChatResponse, (chat_with_remedies env req).1 ≠ .ok resp := by
  have hrun : chat_with_remedies env req =
      (.error ⟨500, "Chat generation failed: " ++ e4⟩,
       ⟨1, GEMINI_MODEL_FALLBACKS, some (buildPrompt req.query sres.results)⟩) := by
    simp [chat_with_remedies, hg, hs, GEMINI_MODEL_FALLBACKS, runFallback,
      h1, h2, h3, h4, pyStrOpt]
  refine ⟨by rw [hrun], ?_⟩
  intro resp h
  rw [hrun] at h
  exact Except.noConfusion h

/-- Witness for chat_fallback_exhaustion: a concrete environment where every
candidate fails with a rate-limit error. -/
theorem chat_fallback_exhaustion_witness :
    (chat_with_remedies chatEnvB { query := "headache" }).1 =
      .error ⟨500, "Chat generation failed: " ++ "rate limited"⟩ :=
  (chat_fallback_exhaustion chatEnvB { query := "headache" }
    { results := [], query_time_ms := 0.0, total_results := 0 } ⟨1, 1⟩
    "rate limited" "rate limited" "rate limited" "rate limited"
    rfl rfl rfl rfl rfl rfl).1

/-- Claim C6: for every corpus of N chunks, a successful ingestion run hands
index.upsert exactly (N + BATCH_SIZE - 1) / BATCH_SIZE batches, sequentially
in order; their concatenation is exactly the ordered VectorRecord sequence,
batch number i is the contiguous slice starting at position BATCH_SIZE * i,
and every batch is nonempty with at most BATCH_SIZE records (only the last
may be smaller). -/
theorem ingest_batching_contract (env : IngestEnv) (chunks : List Chunk)
    (hc : env.connect = .ok ()) (hl : env.loadChunks = .ok chunks)
    (hm : env.loadModel = .ok ()) (hi : env.resolveIndex = .ok ())
    (hu : ∀ b, env.upsert b = .ok ()) :
    (ingest_run env).2 = toBatches (vectors_to_upsert env.encode chunks) ∧
    (ingest_run env).2.length = (chunks.length + BATCH_SIZE - 1) / BATCH_SIZE ∧
    (ingest_run env).2.flatten = vectors_to_upsert env.encode chunks ∧
    (∀ i : Nat, i < (ingest_run env).2.length →
      (ingest_run env).2[i]? =
        some (((vectors_to_upsert env.encode chunks).drop (BATCH_SIZE * i)).take
          BATCH_SIZE)) ∧
    (∀ b ∈ (ingest_run env).2, 0 < b.length ∧ b.length ≤ BATCH_SIZE) := by
  have hV : (ingest_run env).2 = toBatches (vectors_to_upsert env.encode chunks) := by
    simp [ingest_run, hc, hl, hm, hi, runUpserts_all_ok env.upsert hu]
  refine ⟨hV, ?_, ?_, ?_, ?_⟩
  · rw [hV, toBatches_count, vectors_to_upsert_length]
  · rw [hV, toBatches_flatten]
  · intro i hi2
    rw [hV] at hi2 ⊢
    exact toBatches_slice _ i hi2
  · intro b hb
    rw [hV] at hb
    exact toBatches_sizes _ b hb

/-- Witness for ingest_batching_contract on a 60-chunk corpus: the run issues
two upsert batches. -/
theorem ingest_batching_contract_witness :
    (ingest_run ingestEnvW).2.length =
      ((List.replicate 60 chunkW).length + BATCH_SIZE - 1) / BATCH_SIZE :=
  (ingest_batching_contract ingestEnvW (List.replicate 60 chunkW)
    rfl rfl rfl rfl (fun _ => rfl)).2.1

/-- Claim C7: in every chat request that reaches generation, search is
invoked exactly once, the prompt is built from exactly the retrieved result
sequence, and every successful response carries that same sequence, in the
same order, as its sources; nothing is re-queried or reordered after
generation. -/
theorem chat_sources_provenance (env : ChatEnv) (req : ChatRequest)
    (sres : SearchResponse) (fx : SearchEffects)
    (hg : env.geminiConfigured = true)
    (hs : search_remedies env.searchEnv { query := req.query, top_k := 5 } =
      (.ok sres, fx)) :
    (chat_with_remedies env req).2.searchCalls = 1 ∧
    (chat_with_remedies env req).2.promptBuilt =
      some (buildPrompt req.query sres.results) ∧
    (∀ resp : ChatResponse, (chat_with_remedies env req).1 = .ok resp →
      resp.sources = sres.results) := by
  rcases hr : runFallback (fun m => env.generate m (buildPrompt req.query sres.results))
      GEMINI_MODEL_FALLBACKS none with ⟨r1, r2, r3⟩
  cases r1 with
  | none =>
    have hrun : chat_with_remedies env req =
        (.error ⟨500, "Chat generation failed: " ++ pyStrOpt r2⟩,
         ⟨1, r3, some (buildPrompt req.query sres.results)⟩) := by
      simp [chat_with_remedies, hg, hs, hr]
    refine ⟨by rw [hrun], by rw [hrun], ?_⟩
    intro resp h
    rw [hrun] at h
    exact Except.noConfusion h
  | some t =>
    have hrun : chat_with_remedies env req =
        (.ok { answer := t, sources := sres.results },
         ⟨1, r3, some (buildPrompt req.query sres.results)⟩) := by
      simp [chat_with_remedies, hg, hs, hr]
    refine ⟨by rw [hrun], by rw [hrun], ?_⟩
    intro resp h
    rw [hrun] at h
    injection h with h2
    rw [← h2]

/-- Witness for chat_sources_provenance at a concrete environment. -/
theorem chat_sources_provenance_witness :
    (chat_with_remedies chatEnvC { query := "headache" }).2.searchCalls = 1 ∧
    (chat_with_remedies chatEnvC { query := "headache" }).2.promptBuilt =
      some (buildPrompt "headache" []) := by
  have h := chat_sources_provenance chatEnvC { query := "headache" }
    { results := [], query_time_ms := 0.0, total_results := 0 } ⟨1, 1⟩ rfl rfl
  exact ⟨h.1, h.2.1⟩

/-- Claim C8: the VectorRecord built for the chunk at zero-based position i
of the loaded sequence sits at position i of the upserted sequence, its id is
the string chunk_i, its meta carries the untruncated chunk text as full_text,
and its text_preview is the first 300 characters of the text followed by an
ellipsis (so the truncated part is at most 300 characters long). -/
theorem vector_record_fields (encode : String → List Float) (chunks : List Chunk)
    (i : Nat) (h : i < chunks.length) :
    (vectors_to_upsert encode chunks)[i]? =
      some (mkVectorData encode i (chunks.get ⟨i, h⟩)) ∧
    (mkVectorData encode i (chunks.get ⟨i, h⟩)).id = "chunk_" ++ toString i ∧
    (mkVectorData encode i (chunks.get ⟨i, h⟩)).meta.full_text =
      (chunks.get ⟨i, h⟩).text ∧
    (mkVectorData encode i (chunks.get ⟨i, h⟩)).meta.text_preview =
      pySlice (chunks.get ⟨i, h⟩).text 300 ++ "..." ∧
    (pySlice (chunks.get ⟨i, h⟩).text 300).length ≤ 300 := by
  refine ⟨?_, rfl, rfl, rfl, ?_⟩
  · simp [vectors_to_upsert, List.getElem?_map, List.getElem?_enum,
      List.getElem?_eq_getElem h]
  · show ((chunks.get ⟨i, h⟩).text.data.take 300).length ≤ 300
    rw [List.length_take]
    omega

/-- Witness for vector_record_fields on a one-chunk corpus. -/
theorem vector_record_fields_witness :
    (vectors_to_upsert (fun _ => []) [chunkW])[0]? =
      some (mkVectorData (fun _ => []) 0 chunkW) ∧
    (mkVectorData (fun _ => ([] : List Float)) 0 chunkW).id = "chunk_" ++ toString 0 := by
  have h := vector_record_fields (fun _ => []) [chunkW] 0 (by decide)
  exact ⟨h.1, h.2.1⟩


end RagSpec
